import Mathlib

/-!
Verification of the now-playing-api Cloudflare worker (src/index.ts).

The worker is embedded shallowly:

* `ApiResponse` mirrors the TypeScript interface of the same name; the
  `timeStamp` string is modelled by `TS`, which records the only facts the
  program ever extracts from it: whether the string is falsy (absent/empty),
  a non-empty string that `new Date(s).getTime()` cannot parse (NaN), or a
  string parsing to a definite number of milliseconds since the epoch.
* Network and key-value effects are passed in as explicit oracle values
  (`SpotifyEnv`, `AppleEnv`): each `Except String _` component is `.error e`
  when the corresponding awaited call throws, `.ok` otherwise.  A JSON body
  whose shape does not match what the code dereferences (e.g. `song.item.name`
  on a missing `item`) also throws, and is folded into the body's `.error`.
* `Date.now()` is modelled by a single `now : Int` for the whole request
  (time does not advance while the handler runs).
* JavaScript `>=` over possibly-NaN numbers is `geNum` on `Option Int`
  (`none` = NaN): any comparison with NaN is false.
* Functions that the source lets exceptions escape from return
  `Except String _`; functions that cannot throw return plain values.
-/

/-- Model of the `timeStamp : string` field: what `ts ? new Date(ts).getTime() : 0`
can observe about it. -/
inductive TS where
  /-- the string is falsy (empty / undefined) -/
  | absent : TS
  /-- a truthy string for which `new Date(s).getTime()` is NaN -/
  | unparseable : TS
  /-- a truthy string parsing to `t` milliseconds since the epoch
  (`new Date(t).toISOString()` round-trips to exactly `t`) -/
  | time (t : Int) : TS
deriving DecidableEq, Repr

/-- `interface ApiResponse` from src/index.ts. -/
structure ApiResponse where
  success : Bool
  isPlaying : Bool
  timeStamp : TS
  source : Option String := none
  duration : Option Nat := none
  title : Option String := none
  artist : Option String := none
  album : Option String := none
  albumImageUrl : Option String := none
  songUrl : Option String := none
  error : Option String := none
deriving DecidableEq, Repr

-- Cache configuration constants (src/index.ts lines 24-25).
def DEFAULT_CACHE_TTL : Nat := 120
def MAX_CACHE_TTL : Nat := 600

/-- JavaScript truthiness of an optional string (`if (x)` on `string | undefined`). -/
def isTruthy : Option String → Bool
  | some s => s ≠ ""
  | none => false

/-- `x.timeStamp ? new Date(x.timeStamp).getTime() : 0` — the number obtained
from a `TS`, with `none` standing for NaN. -/
def toTime : TS → Option Int
  | TS.absent => some 0
  | TS.unparseable => none
  | TS.time t => some t

/-- JavaScript `>=` on numbers that may be NaN (`none`): any comparison
involving NaN is false. -/
def geNum : Option Int → Option Int → Bool
  | some x, some y => x ≥ y
  | _, _ => false

/-- The Reconciliation Engine: the merge of the two adapter results performed
inline in `fetch` (src/index.ts lines 91-108). -/
def merge (spotify apple : ApiResponse) : ApiResponse :=
  if spotify.isPlaying then spotify
  else if apple.isPlaying then apple
  else if geNum (toTime spotify.timeStamp) (toTime apple.timeStamp) then spotify
  else apple

/-- The Result Cache write decision in `fetch` (src/index.ts lines 110-118):
`some ttl` when a `put` with that `expirationTtl` is issued, `none` when no
write occurs. -/
def cachePut (responseData : ApiResponse) : Option Nat :=
  if responseData.success then
    some (match responseData.duration with
      | some d => Nat.min (d / 1000) MAX_CACHE_TTL
      | none => DEFAULT_CACHE_TTL)
  else none

/-- Modelled from the spec (§4.4), for comparison with `cachePut`:
`ttlSeconds = durationMs present ? min(floor(durationMs / 1000), MAX_TTL=600)
: DEFAULT_TTL=120`. -/
def ttlSpec : Option Nat → Nat
  | some d => Nat.min (d / 1000) 600
  | none => 120

/-- Modelled from the spec (§4.3 step 3), for comparison with `merge`'s
fallback: absent or unparseable timestamps count as the epoch start. -/
def toTimeSpec : TS → Int
  | TS.absent => 0
  | TS.unparseable => 0
  | TS.time t => t

/-- Modelled from the spec (§4.3): the reconciliation priority rule as the
spec words it, with absent/unparseable timestamps treated as the epoch start
and ties going to `a`. -/
def mergeSpec (a b : ApiResponse) : ApiResponse :=
  if a.isPlaying then a
  else if b.isPlaying then b
  else if toTimeSpec a.timeStamp ≥ toTimeSpec b.timeStamp then a
  else b

/-! ## Spotify adapter (src/index.ts lines 127-253) -/

/-- The JSON shape `getNowPlaying` dereferences on a 200 response
(`song.timestamp`, `song.item.*`). -/
structure SpotifySong where
  timestamp : Int
  duration_ms : Nat
  is_playing : Bool
  name : String
  artistNames : List String
  albumName : String
  albumImageUrl : String
  externalUrl : String
deriving DecidableEq, Repr

/-- The JSON shape `getSpotifyRecentlyPlayed` dereferences
(`songs.items[0].played_at`, `.track.*`). -/
structure RecentTrack where
  played_at : Int
  duration_ms : Nat
  name : String
  artistNames : List String
  albumName : String
  albumImageUrl : String
  externalUrl : String
deriving DecidableEq, Repr

deriving instance DecidableEq for Except

/-- Outcome of the HTTP exchange inside `getNowPlaying` once `fetch` itself
returned.  A 200 body whose JSON fails to parse, or whose shape makes a field
access throw, is `okJson (.error _)`. -/
inductive NowPlayingHttp where
  | noContent : NowPlayingHttp
  | notOk (status : Nat) (statusText : String) : NowPlayingHttp
  | okJson (body : Except String SpotifySong) : NowPlayingHttp
deriving DecidableEq, Repr

/-- Outcome of the HTTP exchange inside `getSpotifyRecentlyPlayed`. -/
inductive RecentHttp where
  | notOk (status : Nat) (statusText : String) : RecentHttp
  | okJson (body : Except String RecentTrack) : RecentHttp
deriving DecidableEq, Repr

/-- Oracle for the four awaited external calls `getSpotifyData` can make, in
program order.  An `.error e` component means that awaited call threw `e`
(transport failure, or `response.json()` / field access throwing). -/
structure SpotifyEnv where
  token1 : Except String (Option String)
  nowPlayingResp : Except String NowPlayingHttp
  token2 : Except String (Option String)
  recentResp : Except String RecentHttp
deriving DecidableEq, Repr

/-- The `success:false` state built at src/index.ts lines 131 and 144. -/
def spotifyTokenFailure (now : Int) : ApiResponse :=
  { success := false, isPlaying := false, timeStamp := TS.time now,
    error := some "Could not get access token for Spotify." }

/-- The error message `Failed to fetch from Spotify. Status: ...` (lines 196
and 231 use the same template). -/
def spotifyStatusErrorMsg (status : Nat) (statusText : String) : String :=
  "Failed to fetch from Spotify. Status: " ++ toString status ++ " " ++ statusText

/-- The `success:false` state built on a non-OK response, at src/index.ts
lines 192-197 and (textually identical) lines 227-232. -/
def spotifyHttpFailure (now : Int) (status : Nat) (statusText : String) :
    ApiResponse :=
  { success := false, isPlaying := false, timeStamp := TS.time now,
    error := some (spotifyStatusErrorMsg status statusText) }

/-- `getNowPlaying` (src/index.ts lines 177-216), given the outcome of its
one HTTP call.  Exceptions escape it, hence the `Except`. -/
def getNowPlaying (now : Int) (resp : Except String NowPlayingHttp) :
    Except String ApiResponse :=
  match resp with
  | .error e => .error e
  | .ok NowPlayingHttp.noContent =>
      .ok { success := true, isPlaying := false, timeStamp := TS.time 0 }
  | .ok (NowPlayingHttp.notOk status statusText) =>
      .ok (spotifyHttpFailure now status statusText)
  | .ok (NowPlayingHttp.okJson (.error e)) => .error e
  | .ok (NowPlayingHttp.okJson (.ok song)) =>
      .ok { success := true, source := some "Spotify",
            timeStamp := TS.time song.timestamp,
            duration := some song.duration_ms,
            isPlaying := song.is_playing,
            title := some song.name,
            artist := some (String.intercalate ", " song.artistNames),
            album := some song.albumName,
            albumImageUrl := some song.albumImageUrl,
            songUrl := some song.externalUrl }

/-- `getSpotifyRecentlyPlayed` (src/index.ts lines 218-253). -/
def getSpotifyRecentlyPlayed (now : Int) (resp : Except String RecentHttp) :
    Except String ApiResponse :=
  match resp with
  | .error e => .error e
  | .ok (RecentHttp.notOk status statusText) =>
      .ok (spotifyHttpFailure now status statusText)
  | .ok (RecentHttp.okJson (.error e)) => .error e
  | .ok (RecentHttp.okJson (.ok mostRecent)) =>
      .ok { success := true, source := some "Spotify",
            timeStamp := TS.time mostRecent.played_at,
            duration := some mostRecent.duration_ms,
            isPlaying := false,
            title := some mostRecent.name,
            artist := some (String.intercalate ", " mostRecent.artistNames),
            album := some mostRecent.albumName,
            albumImageUrl := some mostRecent.albumImageUrl,
            songUrl := some mostRecent.externalUrl }

/-- The fallback tail of `getSpotifyData` (src/index.ts lines 141-148):
reacquire a token, fail the adapter if that yields nothing truthy, otherwise
query recently-played. -/
def spotifyFallback (now : Int) (env : SpotifyEnv) : Except String ApiResponse :=
  match env.token2 with
  | .error e => .error e
  | .ok newAccessToken =>
      if isTruthy newAccessToken then getSpotifyRecentlyPlayed now env.recentResp
      else .ok (spotifyTokenFailure now)

/-- `getSpotifyData` (src/index.ts lines 127-149).  The source has no
try/catch here, so a throw in any awaited call escapes as `.error`. -/
def getSpotifyData (now : Int) (env : SpotifyEnv) : Except String ApiResponse :=
  match env.token1 with
  | .error e => .error e
  | .ok accessToken =>
      if isTruthy accessToken then
        match getNowPlaying now env.nowPlayingResp with
        | .error e => .error e
        | .ok spotifynowPlaying =>
            if isTruthy spotifynowPlaying.title then .ok spotifynowPlaying
            else spotifyFallback now env
      else .ok (spotifyTokenFailure now)

/-! ## Apple Music adapter (src/index.ts lines 279-369) -/

/-- `interface AppleCacheState` — the persisted SourceMemory
`{songId, cachedAt}`. -/
structure AppleCacheState where
  songId : String
  cachedAt : Int
deriving DecidableEq, Repr

/-- The JSON shape `getAppleMusicData` dereferences on a good response
(`data[0].id`, `.attributes.*`). -/
structure AppleSong where
  id : String
  durationInMillis : Nat
  name : String
  artistName : String
  albumName : String
  artworkUrlTemplate : String
  url : String
deriving DecidableEq, Repr

/-- Outcome of the HTTP exchange inside `getAppleMusicData` once `fetch`
returned: either `response.status > 204 || !response.body`, or a body whose
JSON/shape either yields a song or throws. -/
inductive AppleHttp where
  | badStatusOrNoBody (status : Nat) (statusText : String) : AppleHttp
  | okJson (body : Except String AppleSong) : AppleHttp
deriving DecidableEq, Repr

/-- Oracle for `getAppleMusicData`'s external interactions.
`developerToken` is `getAppleDeveloperToken`'s result (`null` on any signing
error — that helper has its own try/catch and never throws).  `http` is
`.error` when the `fetch` itself throws.  `cachedState` is the
`APPLE_STATE_CACHE` read. -/
structure AppleEnv where
  developerToken : Option String
  http : Except String AppleHttp
  cachedState : Option AppleCacheState
deriving DecidableEq, Repr

/-- `formatAppleSong` (src/index.ts lines 356-369).  JavaScript
`String.replace` with a string pattern replaces the first occurrence; artwork
templates contain one `\x7bw\x7d` and one `\x7bh\x7d`, where Lean's
replace-all agrees. -/
def formatAppleSong (song : AppleSong) (isLive : Bool) (timestamp : Int) :
    ApiResponse :=
  { success := true, source := some "Apple Music",
    timeStamp := TS.time timestamp,
    isPlaying := isLive,
    duration := some song.durationInMillis,
    title := some song.name,
    artist := some song.artistName,
    album := some song.albumName,
    albumImageUrl :=
      some ((song.artworkUrlTemplate.replace "\x7bw\x7d" "500").replace "\x7bh\x7d" "500"),
    songUrl := some song.url }

/-- The Liveness Inference Engine (src/index.ts lines 315-344, the decision
inlined in `getAppleMusicData`): from the persisted state, the current song
and `now`, decide the `isLive` flag and reported timestamp, and whether a
`put` of a new `AppleCacheState` is issued (`none` = no write). -/
def livenessInfer (cachedState : Option AppleCacheState) (song : AppleSong)
    (now : Int) : (Bool × Int) × Option AppleCacheState :=
  let oneSongAgo : Int := now - (song.durationInMillis : Int)
  match cachedState with
  | some st =>
      if st.songId = song.id then
        if st.cachedAt > oneSongAgo then ((true, st.cachedAt), none)
        else ((false, st.cachedAt), none)
      else ((true, now), some { songId := song.id, cachedAt := now })
  | none => ((true, now), some { songId := song.id, cachedAt := now })

/-- The `success:false` states built at lines 287, 301-306 and 347-352. -/
def appleTokenFailure (now : Int) : ApiResponse :=
  { success := false, isPlaying := false, timeStamp := TS.time now,
    error := some "Could not generate Apple Developer Token." }

def appleStatusFailure (now : Int) (status : Nat) (statusText : String) :
    ApiResponse :=
  { success := false, isPlaying := false, timeStamp := TS.time now,
    error := some ("Failed to fetch from Apple Music. Status: "
      ++ toString status ++ " " ++ statusText) }

def appleCatchFailure (now : Int) : ApiResponse :=
  { success := false, isPlaying := false, timeStamp := TS.time now,
    error := some "Failed to fetch from Apple Music. Is the User Token valid?" }

/-- `getAppleMusicData` (src/index.ts lines 284-354).  Returns the
`ApiResponse` and the `APPLE_STATE_CACHE` write, if any; the whole body sits
in a try/catch, so no exception escapes. -/
def getAppleMusicData (now : Int) (env : AppleEnv) (musicUserToken : Option String) :
    ApiResponse × Option AppleCacheState :=
  if ¬ (isTruthy env.developerToken ∧ isTruthy musicUserToken) then
    (appleTokenFailure now, none)
  else
    match env.http with
    | .error _ => (appleCatchFailure now, none)
    | .ok (AppleHttp.badStatusOrNoBody status statusText) =>
        (appleStatusFailure now status statusText, none)
    | .ok (AppleHttp.okJson (.error _)) => (appleCatchFailure now, none)
    | .ok (AppleHttp.okJson (.ok lastSong)) =>
        let r := livenessInfer env.cachedState lastSong now
        (formatAppleSong lastSong r.1.1 r.1.2, r.2)

/-- The persisted SourceMemory after a request: the write, if any, replaces
the previous value. -/
def applyWrite (mem w : Option AppleCacheState) : Option AppleCacheState :=
  match w with
  | some s => some s
  | none => mem

/-- The spec's invariant on `success = false` states: no descriptive field is
present, only the error message (plus timestamp and flags). -/
def noDescriptive (p : ApiResponse) : Prop :=
  p.source = none ∧ p.duration = none ∧ p.title = none ∧ p.artist = none ∧
  p.album = none ∧ p.albumImageUrl = none ∧ p.songUrl = none ∧
  p.error.isSome = true

/-! ## Concrete states used by witnesses and counterexamples -/

/-- Playing state observed at T1 = 1000 (spec §8 priority test, `a`). -/
def exPlayA : ApiResponse :=
  { success := true, isPlaying := true, timeStamp := TS.time 1000,
    title := some "A" }

/-- Playing state observed at T2 = 2000 > T1 (spec §8 priority test, `b`). -/
def exPlayB : ApiResponse :=
  { success := true, isPlaying := true, timeStamp := TS.time 2000,
    title := some "B" }

/-- Idle state for the priority test's second branch. -/
def exIdleA : ApiResponse :=
  { success := true, isPlaying := false, timeStamp := TS.time 1000,
    title := some "A" }

/-- Idle state whose timestamp string is truthy but unparseable (NaN). -/
def exNanA : ApiResponse :=
  { success := true, isPlaying := false, timeStamp := TS.unparseable,
    title := some "A" }

/-- Idle state whose timestamp string is absent/falsy. -/
def exAbsentB : ApiResponse :=
  { success := true, isPlaying := false, timeStamp := TS.absent,
    title := some "B" }

/-- Idle state observed 2024-01-01T00:00:00Z (spec §8 fallback test, `a`). -/
def exJan1 : ApiResponse :=
  { success := true, isPlaying := false, timeStamp := TS.time 1704067200000,
    title := some "A" }

/-- Idle state observed 2024-01-02T00:00:00Z (spec §8 fallback test, `b`). -/
def exJan2 : ApiResponse :=
  { success := true, isPlaying := false, timeStamp := TS.time 1704153600000,
    title := some "B" }

/-- A concrete recently-played track used by the Spotify-side fixtures. -/
def exRecentTrack : RecentTrack :=
  { played_at := 1704067200000, duration_ms := 180000, name := "Recent Song",
    artistNames := ["Artist"], albumName := "Album", albumImageUrl := "img",
    externalUrl := "u" }

/-- Spotify environment whose first token exchange throws a transport error. -/
def exEnvThrow : SpotifyEnv :=
  { token1 := .error "TypeError: fetch failed",
    nowPlayingResp := .ok NowPlayingHttp.noContent,
    token2 := .ok (some "tok2"),
    recentResp := .ok (RecentHttp.okJson (.ok exRecentTrack)) }

/-- Spotify environment: tokens fine, now-playing answers HTTP 204,
recently-played answers a track. -/
def exEnv204 : SpotifyEnv :=
  { token1 := .ok (some "tok"), nowPlayingResp := .ok NowPlayingHttp.noContent,
    token2 := .ok (some "tok2"),
    recentResp := .ok (RecentHttp.okJson (.ok exRecentTrack)) }

/-- Spotify environment: now-playing answers HTTP 502 and the second token
acquisition yields no token. -/
def exEnvMask : SpotifyEnv :=
  { token1 := .ok (some "tok"),
    nowPlayingResp := .ok (NowPlayingHttp.notOk 502 "Bad Gateway"),
    token2 := .ok none,
    recentResp := .ok (RecentHttp.okJson (.ok exRecentTrack)) }

/-- Spotify environment: now-playing answers HTTP 500 and the second token
acquisition succeeds. -/
def exEnvMask2 : SpotifyEnv :=
  { token1 := .ok (some "tok"),
    nowPlayingResp := .ok (NowPlayingHttp.notOk 500 "ISE"),
    token2 := .ok (some "t2"),
    recentResp := .ok (RecentHttp.okJson (.ok exRecentTrack)) }

/-- Spotify environment whose first token exchange yields no token. -/
def exEnvNoToken : SpotifyEnv :=
  { token1 := .ok none, nowPlayingResp := .ok NowPlayingHttp.noContent,
    token2 := .ok none, recentResp := .ok (RecentHttp.notOk 1 "x") }

/-- Apple environment with no developer token. -/
def exAppleEnvNoToken : AppleEnv :=
  { developerToken := none, http := .ok (AppleHttp.badStatusOrNoBody 500 "ISE"),
    cachedState := none }

/-! ## Concrete Apple-side fixtures -/

/-- A concrete Apple song: id "T1", duration 200000 ms. -/
def exSongT1 : AppleSong :=
  { id := "T1", durationInMillis := 200000, name := "Track One",
    artistName := "Artist", albumName := "Album",
    artworkUrlTemplate := "art", url := "u" }

/-- Stored SourceMemory matching `exSongT1`, observed at t0 = 1000000. -/
def exStateT1 : AppleCacheState := { songId := "T1", cachedAt := 1000000 }

/-- Apple environment: good token, good response carrying `exSongT1`, memory
`exStateT1` present. -/
def exAppleEnvSame : AppleEnv :=
  { developerToken := some "dev", http := .ok (AppleHttp.okJson (.ok exSongT1)),
    cachedState := some exStateT1 }

/-- Apple environment: good token and response, no stored memory. -/
def exAppleEnvFresh : AppleEnv :=
  { developerToken := some "dev", http := .ok (AppleHttp.okJson (.ok exSongT1)),
    cachedState := none }


/-! ## C2 — reconciliation priority -/

/-- C2: whenever Spotify (`a`) reports `isPlaying`, the merge returns `a`
unchanged regardless of `b`; otherwise, whenever `b` reports `isPlaying`,
the merge returns `b` unchanged. -/
theorem reconciliation_priority (a b : ApiResponse) :
    (a.isPlaying = true → merge a b = a) ∧
    (a.isPlaying = false → b.isPlaying = true → merge a b = b) := by
  constructor
  · intro h
    simp [merge, h]
  · intro ha hb
    simp [merge, ha, hb]

/-- C2 witness: the spec's test — both playing, `b` more recent — yields `a`;
and `a` idle with `b` playing yields `b`. -/
theorem reconciliation_priority_witness :
    merge exPlayA exPlayB = exPlayA ∧ merge exIdleA exPlayB = exPlayB :=
  ⟨(reconciliation_priority exPlayA exPlayB).1 rfl,
   (reconciliation_priority exIdleA exPlayB).2 rfl rfl⟩

/-! ## C3 — reconciliation fallback -/

/-- C3 counterexample: with neither input playing, `a`'s timestamp truthy but
unparseable and `b`'s absent, the claim (both treated as epoch start, tie
prefers `a`) predicts `a` — as `mergeSpec` computes — but the code's NaN
comparison is false and it returns `b`. -/
theorem reconciliation_fallback_cex :
    merge exNanA exAbsentB = exAbsentB ∧
    mergeSpec exNanA exAbsentB = exNanA ∧
    exNanA ≠ exAbsentB := by
  refine ⟨rfl, rfl, by decide⟩

/-- C3 amended: with neither input playing, if neither timestamp is
truthy-but-unparseable the merge returns the more recent input (absent
timestamps count as the epoch start) preferring `a` on ties — i.e. it agrees
with the spec's rule — but if either timestamp is unparseable, the NaN
comparison fails and the merge returns `b`.  `success` plays no role. -/
theorem reconciliation_fallback (a b : ApiResponse)
    (ha : a.isPlaying = false) (hb : b.isPlaying = false) :
    (a.timeStamp ≠ TS.unparseable → b.timeStamp ≠ TS.unparseable →
      merge a b = mergeSpec a b) ∧
    ((a.timeStamp = TS.unparseable ∨ b.timeStamp = TS.unparseable) →
      merge a b = b) := by
  constructor
  · intro hna hnb
    cases hta : a.timeStamp <;> cases htb : b.timeStamp <;>
      simp_all [merge, mergeSpec, toTime, toTimeSpec, geNum]
  · intro h
    rcases h with h | h
    · cases htb : b.timeStamp <;> simp [merge, ha, hb, h, toTime, geNum]
    · cases hta : a.timeStamp <;> simp [merge, ha, hb, h, toTime, geNum]

/-- C3 witness: the spec's fallback test — both idle, `b` observed a day
later — where code and spec rule agree and the result is `b`. -/
theorem reconciliation_fallback_witness :
    merge exJan1 exJan2 = mergeSpec exJan1 exJan2 ∧ merge exJan1 exJan2 = exJan2 :=
  ⟨(reconciliation_fallback exJan1 exJan2 rfl rfl).1 (by decide) (by decide),
   by decide⟩

/-! ## C5 — result cache TTL policy -/

/-- C5: a cache write occurs iff the merged answer has `success = true`, with
TTL `min(floor(durationMs/1000), 600)` when `durationMs` is present and `120`
otherwise; in particular 180000 ms gives 180 s, 900000 ms caps at 600 s. -/
theorem cache_ttl_policy (p : ApiResponse) :
    cachePut p = (if p.success then some (ttlSpec p.duration) else none) ∧
    ttlSpec (some 180000) = 180 ∧ ttlSpec (some 900000) = 600 ∧
    ttlSpec none = 120 := by
  refine ⟨?_, by decide, by decide, rfl⟩
  cases hs : p.success <;>
    cases hd : p.duration <;>
      simp [cachePut, hs, hd, ttlSpec, MAX_CACHE_TTL, DEFAULT_CACHE_TTL]


/-! ## C1 — liveness inference, same-track case -/

/-- C1: when the stored memory's `songId` equals the current song's id, the
adapter reports `isPlaying = true` with the *stored* `cachedAt` as timestamp
if `cachedAt > now - durationMs` (strictly), and `isPlaying = false` with the
stored `cachedAt` otherwise; in both branches no SourceMemory write occurs. -/
theorem liveness_same_track (now : Int) (env : AppleEnv) (mu : Option String)
    (song : AppleSong) (st : AppleCacheState)
    (htok : isTruthy env.developerToken = true) (hmu : isTruthy mu = true)
    (hhttp : env.http = .ok (AppleHttp.okJson (.ok song)))
    (hcs : env.cachedState = some st) (hid : st.songId = song.id) :
    (st.cachedAt > now - (song.durationInMillis : Int) →
      getAppleMusicData now env mu = (formatAppleSong song true st.cachedAt, none) ∧
      (getAppleMusicData now env mu).1.isPlaying = true ∧
      (getAppleMusicData now env mu).1.timeStamp = TS.time st.cachedAt) ∧
    (¬ st.cachedAt > now - (song.durationInMillis : Int) →
      getAppleMusicData now env mu = (formatAppleSong song false st.cachedAt, none) ∧
      (getAppleMusicData now env mu).1.isPlaying = false ∧
      (getAppleMusicData now env mu).1.timeStamp = TS.time st.cachedAt) := by
  constructor
  · intro hwin
    simp [getAppleMusicData, htok, hmu, hhttp, hcs, livenessInfer, hid, hwin,
      formatAppleSong]
  · intro hwin
    simp [getAppleMusicData, htok, hmu, hhttp, hcs, livenessInfer, hid, hwin,
      formatAppleSong]

/-- C1 witness: the spec's past-window test — t0 = 1000000, duration 200000,
now = t0 + 300000 — reports not playing, timestamped t0, with no write. -/
theorem liveness_same_track_witness :
    getAppleMusicData 1300000 exAppleEnvSame (some "mu")
      = (formatAppleSong exSongT1 false 1000000, none) :=
  ((liveness_same_track 1300000 exAppleEnvSame (some "mu") exSongT1 exStateT1
    rfl rfl rfl rfl rfl).2 (by decide)).1

/-! ## C4 — liveness inference, new-track case -/

/-- C4: when the memory is absent or stores a different `songId`, the adapter
writes `{songId := current id, cachedAt := now}` and reports
`isPlaying = true` timestamped `now`; moreover a SourceMemory write happens
*only* under that condition (and only on the good-response path). -/
theorem liveness_new_track :
    (∀ (now : Int) (env : AppleEnv) (mu : Option String) (song : AppleSong),
      isTruthy env.developerToken = true → isTruthy mu = true →
      env.http = .ok (AppleHttp.okJson (.ok song)) →
      (env.cachedState = none ∨
        ∃ st, env.cachedState = some st ∧ st.songId ≠ song.id) →
      getAppleMusicData now env mu =
        (formatAppleSong song true now, some { songId := song.id, cachedAt := now }) ∧
      (getAppleMusicData now env mu).1.isPlaying = true ∧
      (getAppleMusicData now env mu).1.timeStamp = TS.time now) ∧
    (∀ (now : Int) (env : AppleEnv) (mu : Option String),
      (getAppleMusicData now env mu).2 ≠ none →
      ∃ song, env.http = .ok (AppleHttp.okJson (.ok song)) ∧
        (env.cachedState = none ∨
          ∃ st, env.cachedState = some st ∧ st.songId ≠ song.id)) := by
  constructor
  · intro now env mu song htok hmu hhttp hnew
    rcases hnew with hnone | ⟨st, hsome, hne⟩
    · simp [getAppleMusicData, htok, hmu, hhttp, hnone, livenessInfer,
        formatAppleSong]
    · simp [getAppleMusicData, htok, hmu, hhttp, hsome, livenessInfer, hne,
        formatAppleSong]
  · intro now env mu hw
    by_cases htok : isTruthy env.developerToken = true ∧ isTruthy mu = true
    · cases hh : env.http with
      | error e => simp [getAppleMusicData, htok.1, htok.2, hh] at hw
      | ok h =>
        cases h with
        | badStatusOrNoBody status statusText =>
            simp [getAppleMusicData, htok.1, htok.2, hh] at hw
        | okJson body =>
          cases body with
          | error e => simp [getAppleMusicData, htok.1, htok.2, hh] at hw
          | ok song =>
            refine ⟨song, rfl, ?_⟩
            cases hcs : env.cachedState with
            | none => exact Or.inl rfl
            | some st =>
              refine Or.inr ⟨st, rfl, ?_⟩
              intro hid
              by_cases hwin : now - (song.durationInMillis : Int) < st.cachedAt <;>
                simp [getAppleMusicData, htok.1, htok.2, hh, hcs, livenessInfer,
                  hid, hwin] at hw
    · exact absurd (by simp [getAppleMusicData, htok]) hw

/-- C4 witness: with no stored memory, song "T1" at now = 500 is reported
playing at 500 and the memory is overwritten with `{T1, 500}`. -/
theorem liveness_new_track_witness :
    getAppleMusicData 500 exAppleEnvFresh (some "mu")
      = (formatAppleSong exSongT1 true 500,
         some { songId := "T1", cachedAt := 500 }) :=
  (liveness_new_track.1 500 exAppleEnvFresh (some "mu") exSongT1
    rfl rfl rfl (Or.inl rfl)).1

/-! ## C9 — liveness idempotence -/

/-- C9: with the stored memory already matching the current song, a run of the
liveness engine issues no write, and a second run from the resulting
(unchanged) memory with the same inputs returns the identical answer. -/
theorem liveness_idempotent (st : AppleCacheState) (song : AppleSong)
    (now : Int) (hid : st.songId = song.id) :
    (livenessInfer (some st) song now).2 = none ∧
    livenessInfer (applyWrite (some st) (livenessInfer (some st) song now).2)
        song now
      = livenessInfer (some st) song now := by
  have h2 : (livenessInfer (some st) song now).2 = none := by
    by_cases hwin : st.cachedAt > now - (song.durationInMillis : Int) <;>
      simp [livenessInfer, hid, hwin]
  refine ⟨h2, ?_⟩
  rw [h2]
  rfl

/-- C9 witness: at the concrete same-track fixture, no write and a repeated
run agrees. -/
theorem liveness_idempotent_witness :
    (livenessInfer (some exStateT1) exSongT1 1300000).2 = none ∧
    livenessInfer
        (applyWrite (some exStateT1)
          (livenessInfer (some exStateT1) exSongT1 1300000).2)
        exSongT1 1300000
      = livenessInfer (some exStateT1) exSongT1 1300000 :=
  liveness_idempotent exStateT1 exSongT1 1300000 rfl

/-! ## Helper lemmas: shapes of adapter failure outputs -/

/-- Any `success = false` answer `getNowPlaying` returns (rather than throws)
is a `spotifyHttpFailure` for some status. -/
theorem getNowPlaying_ok_failure (now : Int) (resp : Except String NowPlayingHttp)
    (p : ApiResponse) (h : getNowPlaying now resp = .ok p)
    (hs : p.success = false) :
    ∃ status statusText, p = spotifyHttpFailure now status statusText := by
  cases resp with
  | error e => simp [getNowPlaying] at h
  | ok r =>
    cases r with
    | noContent =>
      simp [getNowPlaying] at h
      rw [← h] at hs
      simp at hs
    | notOk status statusText =>
      simp [getNowPlaying] at h
      exact ⟨status, statusText, h.symm⟩
    | okJson body =>
      cases body with
      | error e => simp [getNowPlaying] at h
      | ok song =>
        simp [getNowPlaying] at h
        rw [← h] at hs
        simp at hs

/-- Any `success = false` answer `getSpotifyRecentlyPlayed` returns is a
`spotifyHttpFailure`. -/
theorem getRecentlyPlayed_ok_failure (now : Int) (resp : Except String RecentHttp)
    (p : ApiResponse) (h : getSpotifyRecentlyPlayed now resp = .ok p)
    (hs : p.success = false) :
    ∃ status statusText, p = spotifyHttpFailure now status statusText := by
  cases resp with
  | error e => simp [getSpotifyRecentlyPlayed] at h
  | ok r =>
    cases r with
    | notOk status statusText =>
      simp [getSpotifyRecentlyPlayed] at h
      exact ⟨status, statusText, h.symm⟩
    | okJson body =>
      cases body with
      | error e => simp [getSpotifyRecentlyPlayed] at h
      | ok t =>
        simp [getSpotifyRecentlyPlayed] at h
        rw [← h] at hs
        simp at hs

/-- Any `success = false` answer of `getSpotifyData` is a token failure or an
HTTP-status failure. -/
theorem getSpotifyData_ok_failure (now : Int) (env : SpotifyEnv)
    (p : ApiResponse) (h : getSpotifyData now env = .ok p)
    (hs : p.success = false) :
    p = spotifyTokenFailure now ∨
    ∃ status statusText, p = spotifyHttpFailure now status statusText := by
  cases h1 : env.token1 with
  | error e => simp [getSpotifyData, h1] at h
  | ok tok =>
    by_cases ht : isTruthy tok = true
    · cases hnp : getNowPlaying now env.nowPlayingResp with
      | error e => simp [getSpotifyData, h1, ht, hnp] at h
      | ok np =>
        by_cases htitle : isTruthy np.title = true
        · simp [getSpotifyData, h1, ht, hnp, htitle] at h
          rw [← h]
          exact Or.inr (getNowPlaying_ok_failure now env.nowPlayingResp np hnp
            (h ▸ hs))
        · have h' : spotifyFallback now env = .ok p := by
            rw [← h]
            simp [getSpotifyData, h1, ht, hnp, htitle]
          cases h2 : env.token2 with
          | error e => simp [spotifyFallback, h2] at h'
          | ok tok2 =>
            by_cases ht2 : isTruthy tok2 = true
            · simp [spotifyFallback, h2, ht2] at h'
              exact Or.inr
                (getRecentlyPlayed_ok_failure now env.recentResp p h' hs)
            · simp [spotifyFallback, h2, ht2] at h'
              exact Or.inl h'.symm
    · simp [getSpotifyData, h1, ht] at h
      exact Or.inl h.symm

/-- `isTruthy` on an absent string is false. -/
theorem isTruthy_none : isTruthy none = false := rfl

/-- Any exception escaping `spotifyFallback` is one thrown by the second token
exchange, the recently-played call, or its body. -/
theorem spotifyFallback_error_origin (now : Int) (env : SpotifyEnv) (e : String)
    (h : spotifyFallback now env = .error e) :
    env.token2 = .error e ∨ env.recentResp = .error e ∨
    env.recentResp = .ok (RecentHttp.okJson (.error e)) := by
  cases h2 : env.token2 with
  | error e2 =>
    simp [spotifyFallback, h2] at h
    exact Or.inl (by rw [h])
  | ok tok2 =>
    by_cases ht2 : isTruthy tok2 = true
    · simp [spotifyFallback, h2, ht2] at h
      cases hr : env.recentResp with
      | error e3 =>
        rw [hr] at h
        simp [getSpotifyRecentlyPlayed] at h
        exact Or.inr (Or.inl (by rw [h]))
      | ok rr =>
        cases rr with
        | notOk s t =>
          rw [hr] at h
          simp [getSpotifyRecentlyPlayed] at h
        | okJson body =>
          cases body with
          | error e3 =>
            rw [hr] at h
            simp [getSpotifyRecentlyPlayed] at h
            exact Or.inr (Or.inr (by rw [h]))
          | ok t =>
            rw [hr] at h
            simp [getSpotifyRecentlyPlayed] at h
    · simp [spotifyFallback, h2, ht2] at h

/-- Any exception escaping `getSpotifyData` is one thrown by an awaited
external call: a token exchange, the now-playing call or its body, the
recently-played call or its body. -/
theorem getSpotifyData_error_origin (now : Int) (env : SpotifyEnv) (e : String)
    (h : getSpotifyData now env = .error e) :
    env.token1 = .error e ∨ env.nowPlayingResp = .error e ∨
    env.nowPlayingResp = .ok (NowPlayingHttp.okJson (.error e)) ∨
    env.token2 = .error e ∨ env.recentResp = .error e ∨
    env.recentResp = .ok (RecentHttp.okJson (.error e)) := by
  cases h1 : env.token1 with
  | error e1 =>
    simp [getSpotifyData, h1] at h
    exact Or.inl (by rw [h])
  | ok tok =>
    by_cases ht : isTruthy tok = true
    · cases hnp : env.nowPlayingResp with
      | error e1 =>
        simp [getSpotifyData, h1, ht, getNowPlaying, hnp] at h
        exact Or.inr (Or.inl (by rw [h]))
      | ok r =>
        cases r with
        | noContent =>
          have h' : spotifyFallback now env = .error e := by
            rw [← h]
            simp [getSpotifyData, h1, ht, hnp, getNowPlaying, isTruthy_none]
          rcases spotifyFallback_error_origin now env e h' with h4 | h5 | h6
          · exact Or.inr (Or.inr (Or.inr (Or.inl h4)))
          · exact Or.inr (Or.inr (Or.inr (Or.inr (Or.inl h5))))
          · exact Or.inr (Or.inr (Or.inr (Or.inr (Or.inr h6))))
        | notOk s t =>
          have h' : spotifyFallback now env = .error e := by
            rw [← h]
            simp [getSpotifyData, h1, ht, hnp, getNowPlaying,
              spotifyHttpFailure, isTruthy_none]
          rcases spotifyFallback_error_origin now env e h' with h4 | h5 | h6
          · exact Or.inr (Or.inr (Or.inr (Or.inl h4)))
          · exact Or.inr (Or.inr (Or.inr (Or.inr (Or.inl h5))))
          · exact Or.inr (Or.inr (Or.inr (Or.inr (Or.inr h6))))
        | okJson body =>
          cases body with
          | error e1 =>
            simp [getSpotifyData, h1, ht, hnp, getNowPlaying] at h
            exact Or.inr (Or.inr (Or.inl (by rw [h])))
          | ok song =>
            by_cases htitle : isTruthy (some song.name) = true
            · simp [getSpotifyData, h1, ht, hnp, getNowPlaying, htitle] at h
            · have h' : spotifyFallback now env = .error e := by
                rw [← h]
                simp [getSpotifyData, h1, ht, hnp, getNowPlaying, htitle]
              rcases spotifyFallback_error_origin now env e h' with h4 | h5 | h6
              · exact Or.inr (Or.inr (Or.inr (Or.inl h4)))
              · exact Or.inr (Or.inr (Or.inr (Or.inr (Or.inl h5))))
              · exact Or.inr (Or.inr (Or.inr (Or.inr (Or.inr h6))))
    · simp [getSpotifyData, h1, ht] at h

/-- Any `success = false` answer of `getAppleMusicData` is one of its three
failure states. -/
theorem getAppleMusicData_failure_cases (now : Int) (env : AppleEnv)
    (mu : Option String)
    (hs : (getAppleMusicData now env mu).1.success = false) :
    (getAppleMusicData now env mu).1 = appleTokenFailure now ∨
    (∃ status statusText,
      (getAppleMusicData now env mu).1 = appleStatusFailure now status statusText) ∨
    (getAppleMusicData now env mu).1 = appleCatchFailure now := by
  by_cases htok : isTruthy env.developerToken = true ∧ isTruthy mu = true
  · cases hh : env.http with
    | error e =>
      exact Or.inr (Or.inr (by simp [getAppleMusicData, htok.1, htok.2, hh]))
    | ok r =>
      cases r with
      | badStatusOrNoBody s t =>
        exact Or.inr (Or.inl ⟨s, t,
          by simp [getAppleMusicData, htok.1, htok.2, hh]⟩)
      | okJson body =>
        cases body with
        | error e =>
          exact Or.inr (Or.inr
            (by simp [getAppleMusicData, htok.1, htok.2, hh]))
        | ok song =>
          exfalso
          simp [getAppleMusicData, htok.1, htok.2, hh, formatAppleSong] at hs
  · exact Or.inl (by simp [getAppleMusicData, htok])

/-! ## C6 — adapters never raise -/

/-- C6 counterexample: when the first Spotify token exchange throws (a
transport failure), `getSpotifyData` propagates the exception instead of
returning a `success:false` `PlaybackState`. -/
theorem adapters_never_raise_cex :
    getSpotifyData 0 exEnvThrow = Except.error "TypeError: fetch failed" := rfl

/-- C6 amended: the Apple adapter and the checked Spotify failure paths
convert failures to `{success:false, isPlaying:false, observedAt:now,
error:msg}` states, but an exception thrown by an awaited call inside the
Spotify adapter (token exchange, now-playing or recently-played transport or
body parsing) propagates across its boundary — `getSpotifyData` has no
try/catch. -/
theorem adapters_failure_conversion :
    (∀ (now : Int) (env : AppleEnv) (mu : Option String),
      (getAppleMusicData now env mu).1.success = false →
      (getAppleMusicData now env mu).1.isPlaying = false ∧
      (getAppleMusicData now env mu).1.timeStamp = TS.time now ∧
      (getAppleMusicData now env mu).1.error.isSome = true) ∧
    (∀ (now : Int) (env : SpotifyEnv) (p : ApiResponse),
      getSpotifyData now env = .ok p → p.success = false →
      p.isPlaying = false ∧ p.timeStamp = TS.time now ∧
      p.error.isSome = true) ∧
    (∀ (now : Int) (env : SpotifyEnv) (e : String),
      getSpotifyData now env = .error e →
      env.token1 = .error e ∨ env.nowPlayingResp = .error e ∨
      env.nowPlayingResp = .ok (NowPlayingHttp.okJson (.error e)) ∨
      env.token2 = .error e ∨ env.recentResp = .error e ∨
      env.recentResp = .ok (RecentHttp.okJson (.error e))) := by
  refine ⟨?_, ?_, ?_⟩
  · intro now env mu hs
    rcases getAppleMusicData_failure_cases now env mu hs with h | ⟨s, t, h⟩ | h <;>
      rw [h] <;> simp [appleTokenFailure, appleStatusFailure, appleCatchFailure]
  · intro now env p h hs
    rcases getSpotifyData_ok_failure now env p h hs with h' | ⟨s, t, h'⟩ <;>
      rw [h'] <;> simp [spotifyTokenFailure, spotifyHttpFailure]
  · intro now env e h
    exact getSpotifyData_error_origin now env e h

/-- C6 witness: the Apple adapter with no developer token yields a
`success:false` state shaped as required. -/
theorem adapters_failure_conversion_witness :
    (getAppleMusicData 3 exAppleEnvNoToken none).1.isPlaying = false ∧
    (getAppleMusicData 3 exAppleEnvNoToken none).1.timeStamp = TS.time 3 ∧
    (getAppleMusicData 3 exAppleEnvNoToken none).1.error.isSome = true :=
  adapters_failure_conversion.1 3 exAppleEnvNoToken none (by decide)

/-! ## C7 — Service A empty-status -/

/-- C7 counterexample: tokens fine, now-playing answers HTTP 204,
recently-played answers a track — the adapter does *not* return the
`{success:true, isPlaying:false, observedAt:epoch}` state; it returns the
recently-played outcome, because the 204 state carries no title. -/
theorem spotify_empty_status_cex :
    getSpotifyData 5 exEnv204 = getSpotifyRecentlyPlayed 5 exEnv204.recentResp ∧
    getSpotifyData 5 exEnv204 ≠
      Except.ok { success := true, isPlaying := false, timeStamp := TS.time 0 } := by
  exact ⟨rfl, by decide⟩

/-- C7 amended: on HTTP 204 the now-playing query itself yields
`{success:true, isPlaying:false, observedAt:epoch}`, but that state has no
title, so `getSpotifyData` does not return it — it proceeds to the fallback
(fresh token, recently-played query); the fallback is keyed on the absence of
a title, not on "no track at all" being distinct from the empty status. -/
theorem spotify_empty_status (now : Int) (env : SpotifyEnv) (tok : Option String)
    (h1 : env.token1 = .ok tok) (ht : isTruthy tok = true)
    (h204 : env.nowPlayingResp = .ok NowPlayingHttp.noContent) :
    getNowPlaying now env.nowPlayingResp =
      .ok { success := true, isPlaying := false, timeStamp := TS.time 0 } ∧
    getSpotifyData now env = spotifyFallback now env := by
  constructor
  · rw [h204]
    rfl
  · simp [getSpotifyData, h1, ht, h204, getNowPlaying, isTruthy_none]

/-- C7 witness: the amended statement at the concrete 204 environment. -/
theorem spotify_empty_status_witness :
    getSpotifyData 5 exEnv204 = spotifyFallback 5 exEnv204 :=
  (spotify_empty_status 5 exEnv204 (some "tok") rfl rfl rfl).2

/-! ## C8 — failure-state invariant -/

/-- C8: every `success = false` state either adapter returns carries no
descriptive field (no source, duration, title, artist, album, art or track
URL) — only the error message, timestamp and flags; and the merge returns one
of its two inputs unchanged, so it introduces no new states. -/
theorem failure_state_invariant :
    (∀ (now : Int) (env : SpotifyEnv) (p : ApiResponse),
      getSpotifyData now env = .ok p → p.success = false → noDescriptive p) ∧
    (∀ (now : Int) (env : AppleEnv) (mu : Option String),
      (getAppleMusicData now env mu).1.success = false →
      noDescriptive (getAppleMusicData now env mu).1) ∧
    (∀ a b : ApiResponse, merge a b = a ∨ merge a b = b) := by
  refine ⟨?_, ?_, ?_⟩
  · intro now env p h hs
    rcases getSpotifyData_ok_failure now env p h hs with h' | ⟨s, t, h'⟩ <;>
      rw [h'] <;>
        simp [noDescriptive, spotifyTokenFailure, spotifyHttpFailure]
  · intro now env mu hs
    rcases getAppleMusicData_failure_cases now env mu hs with h | ⟨s, t, h⟩ | h <;>
      rw [h] <;>
        simp [noDescriptive, appleTokenFailure, appleStatusFailure,
          appleCatchFailure]
  · intro a b
    by_cases ha : a.isPlaying = true
    · exact Or.inl (by simp [merge, ha])
    · by_cases hb : b.isPlaying = true
      · exact Or.inr (by simp [merge, ha, hb])
      · by_cases hc : geNum (toTime a.timeStamp) (toTime b.timeStamp) = true
        · exact Or.inl (by simp [merge, ha, hb, hc])
        · exact Or.inr (by simp [merge, ha, hb, hc])

/-- C8 witness: the Spotify token-failure state at a concrete environment has
no descriptive fields. -/
theorem failure_state_invariant_witness :
    noDescriptive (spotifyTokenFailure 2) :=
  failure_state_invariant.1 2 exEnvNoToken (spotifyTokenFailure 2) rfl rfl

/-! ## C10 — now-playing failure masking -/

/-- C10 counterexample: now-playing answers HTTP 502 and the second token
acquisition yields no token; the adapter returns the token-failure state and
never runs the recently-played query, so "always … queries recently-played,
and only that second query's outcome is returned" fails. -/
theorem nowplaying_masking_cex :
    getSpotifyData 7 exEnvMask = Except.ok (spotifyTokenFailure 7) ∧
    Except.ok (spotifyTokenFailure 7) ≠
      getSpotifyRecentlyPlayed 7 exEnvMask.recentResp := by
  exact ⟨rfl, by decide⟩

/-- C10 amended: when the now-playing query yields a non-success HTTP status,
that `success:false` result (title-less) never surfaces as the adapter's
answer: the adapter always proceeds to the fallback — and whenever the token
reacquisition succeeds, the recently-played query's outcome is what is
returned; when it fails, a token-failure state is returned instead. -/
theorem nowplaying_masking (now : Int) (env : SpotifyEnv) (tok : Option String)
    (status : Nat) (statusText : String)
    (h1 : env.token1 = .ok tok) (ht : isTruthy tok = true)
    (hnp : env.nowPlayingResp = .ok (NowPlayingHttp.notOk status statusText)) :
    getSpotifyData now env = spotifyFallback now env ∧
    (∀ tok2, env.token2 = .ok tok2 → isTruthy tok2 = true →
      getSpotifyData now env = getSpotifyRecentlyPlayed now env.recentResp) := by
  have hmain : getSpotifyData now env = spotifyFallback now env := by
    simp [getSpotifyData, h1, ht, hnp, getNowPlaying, spotifyHttpFailure,
      isTruthy_none]
  refine ⟨hmain, ?_⟩
  intro tok2 h2 ht2
  rw [hmain]
  simp [spotifyFallback, h2, ht2]

/-- C10 witness: with a 500 from now-playing and a successful token
reacquisition, the adapter's answer is the recently-played outcome. -/
theorem nowplaying_masking_witness :
    getSpotifyData 9 exEnvMask2 = getSpotifyRecentlyPlayed 9 exEnvMask2.recentResp :=
  (nowplaying_masking 9 exEnvMask2 (some "tok") 500 "ISE" rfl rfl rfl).2
    (some "t2") rfl rfl
